import Mathlib

/-!
Verification development for the CodeBattle room and battle orchestration
engine.  The definitions below are a shallow embedding of the JavaScript
source: the Room mongoose model (`src/unnamed/part_005`), the Match model
(`src/backend/src/models/Match.js`), the User model (`src/unnamed/part_006`)
and the socket handlers (`src/backend/src/socket/battleHandlers.js`, which
also contains the room handlers).  Times are modelled in milliseconds as
natural numbers; user identifiers are natural numbers.
-/

namespace CodeBattle

/-- Room status enum from the Room schema. -/
inductive RoomStatus
  | waiting
  | ready
  | in_progress
  | completed
  | cancelled
deriving DecidableEq, Repr

/-- Difficulty enum from the Room settings schema. -/
inductive Difficulty
  | easy
  | medium
  | hard
deriving DecidableEq, Repr

/-- A participant's last submission (Room schema, `participants.lastSubmission`).
Test results are modelled by their `passed` flags only. -/
structure Submission where
  code : String
  language : String
  submittedAt : Nat
  testResults : List Bool
  score : Nat
deriving DecidableEq, Repr

/-- An embedded participant of a room (Room schema, `participants`). -/
structure Participant where
  user : Nat
  joinedAt : Nat
  isReady : Bool
  currentCode : String := ""
  lastSubmission : Option Submission := none
deriving DecidableEq, Repr

/-- Room settings (Room schema, `settings`). -/
structure Settings where
  maxParticipants : Nat
  difficulty : Difficulty
  language : String
  timeLimit : Nat
  isRanked : Bool
  allowSpectators : Bool
deriving DecidableEq, Repr

/-- One entry of `battle.results` as built in the socket `endBattle` helper. -/
structure BattleResult where
  user : Nat
  finalScore : Nat
  timeSpent : Nat
  submissionCount : Nat
  correctTests : Nat
  totalTests : Nat
deriving DecidableEq, Repr

/-- The room's battle timing block (Room schema, `battle`). -/
structure BattleInfo where
  startedAt : Option Nat := none
  endedAt : Option Nat := none
  duration : Option Nat := none
  winner : Option Nat := none
  results : List BattleResult := []
deriving DecidableEq, Repr

/-- A chat entry (Room schema, `chat`). -/
structure ChatMsg where
  user : Option Nat
  message : String
  timestamp : Nat
  type : String := "message"
deriving DecidableEq, Repr

/-- The Room aggregate (Room schema). -/
structure Room where
  roomId : String
  name : String
  host : Nat
  participants : List Participant
  settings : Settings
  problem : Option Nat := none
  status : RoomStatus := RoomStatus.waiting
  battle : BattleInfo := {}
  spectators : List Nat := []
  chat : List ChatMsg := []
  isPrivate : Bool := false
  password : Option String := none
deriving DecidableEq, Repr

/-- Virtual `isFull` from the Room schema. -/
def Room.isFull (r : Room) : Bool :=
  r.participants.length ≥ r.settings.maxParticipants

/-- Method `isParticipant` from the Room schema. -/
def Room.isParticipant (r : Room) (userId : Nat) : Bool :=
  r.participants.any (fun p => p.user == userId)

/-- Method `isHost` from the Room schema. -/
def Room.isHost (r : Room) (userId : Nat) : Bool :=
  r.host == userId

/-- Method `allParticipantsReady` from the Room schema. -/
def Room.allParticipantsReady (r : Room) : Bool :=
  r.participants.length ≥ 2 && r.participants.all (fun p => p.isReady)

/-- Method `addParticipant` from the Room schema: refuses when the room is
full or the user is already present, else appends with `isReady = false`. -/
def Room.addParticipant (r : Room) (userId : Nat) (now : Nat) : Room × Bool :=
  if r.isFull || r.isParticipant userId then (r, false)
  else
    ({ r with participants :=
        r.participants ++ [{ user := userId, joinedAt := now, isReady := false }] },
     true)

/-- Method `removeParticipant` from the Room schema. -/
def Room.removeParticipant (r : Room) (userId : Nat) : Room :=
  { r with participants := r.participants.filter (fun p => p.user != userId) }

/-- Updates the first participant matching the given user, as the source's
`participants.find(...)` followed by in-place mutation does. -/
def updateFirst (userId : Nat) (f : Participant → Participant) :
    List Participant → List Participant
  | [] => []
  | p :: t => if p.user == userId then f p :: t else p :: updateFirst userId f t

/-- Method `setParticipantReady` from the Room schema. -/
def Room.setParticipantReady (r : Room) (userId : Nat) (isReady : Bool) : Room :=
  { r with participants :=
      updateFirst userId (fun p => { p with isReady := isReady }) r.participants }

/-- Method `startBattle` from the Room schema. -/
def Room.startBattle (r : Room) (now : Nat) : Room × Bool :=
  if !r.allParticipantsReady || r.status != RoomStatus.ready then (r, false)
  else
    ({ r with status := RoomStatus.in_progress,
              battle := { r.battle with startedAt := some now } },
     true)

/-- The reducer used for the winner in the Room schema's `endBattle`:
`prev.finalScore > current.finalScore ? prev : current`. -/
def pick (prev current : BattleResult) : BattleResult :=
  if prev.finalScore > current.finalScore then prev else current

/-- Method `endBattle` from the Room schema: seals the battle block and sets
the winner to the result of reducing `results` with `pick` (so nothing but
the final score is consulted).  `Math.round((endedAt - startedAt)/1000)` is
modelled as `(d + 500) / 1000` on milliseconds. -/
def Room.endBattle (r : Room) (results : List BattleResult) (now : Nat) : Room :=
  { r with
      status := RoomStatus.completed,
      battle :=
        { r.battle with
            endedAt := some now,
            duration := some ((now - r.battle.startedAt.getD 0 + 500) / 1000),
            results := results,
            winner :=
              match results with
              | [] => r.battle.winner
              | h :: t => some ((t.foldl pick h).user) } }

/-- Method `addChatMessage` from the Room schema: appends the message and, when
the log then exceeds 100 entries, keeps only the last 100 (`slice(-100)`). -/
def Room.addChatMessage (r : Room) (userId : Option Nat) (message : String)
    (type : String) (now : Nat) : Room :=
  let chat := r.chat ++ [{ user := userId, message := message,
                           timestamp := now, type := type }]
  { r with chat := if chat.length > 100 then chat.drop (chat.length - 100) else chat }

/-- Errors surfaced to the caller by the socket handlers of
`battleHandlers.js` (each corresponds to one `socket.emit('error', ...)`). -/
inductive RoomErr
  | notAuthorized
  | notInProgress
  | timeUp
  | roomFull
  | alreadyInRoom
  | wrongPassword
  | battleInProgress
  | notInRoom
  | notHost
  | invalidState
deriving DecidableEq, Repr

/-- Optional settings carried by a `room:update-settings` event; the handler
only copies the keys that are present (`settings[key] !== undefined`). -/
structure SettingsUpdate where
  difficulty : Option Difficulty := none
  language : Option String := none
  timeLimit : Option Nat := none
  maxParticipants : Option Nat := none
deriving DecidableEq, Repr

/-- JavaScript default via `||`: `undefined` and `0` are falsy, so both fall
back to the default (handler `room:create`, settings block). -/
def jsOr (o : Option Nat) (d : Nat) : Nat :=
  match o with
  | none => d
  | some 0 => d
  | some n => n

/-- Settings input of a `room:create` event. -/
structure CreateSettings where
  maxParticipants : Option Nat := none
  difficulty : Option Difficulty := none
  language : Option String := none
  timeLimit : Option Nat := none
deriving DecidableEq, Repr

/-- Handler `room:create` (roomHandlers): builds the room with defaulted
settings and inserts the host as first participant via `addParticipant`. -/
def createRoom (roomId name : String) (hostId : Nat) (cs : CreateSettings)
    (isPrivate : Bool) (password : Option String) (now : Nat) : Room :=
  let base : Room :=
    { roomId := roomId
      name := name
      host := hostId
      participants := []
      settings :=
        { maxParticipants := jsOr cs.maxParticipants 2
          difficulty := cs.difficulty.getD Difficulty.medium
          language := cs.language.getD "any"
          timeLimit := jsOr cs.timeLimit 15
          isRanked := true
          allowSpectators := true }
      isPrivate := isPrivate
      password := password }
  (base.addParticipant hostId now).1

/-- Handler `room:join` (roomHandlers): guards in source order (full, already
present, wrong password for private rooms, battle in progress), then
`addParticipant` plus a system chat message. -/
def joinRoom (r : Room) (userId : Nat) (username : String)
    (password : Option String) (now : Nat) : Except RoomErr Room :=
  if r.isFull then .error .roomFull
  else if r.isParticipant userId then .error .alreadyInRoom
  else if r.isPrivate && r.password.isSome && r.password != password then
    .error .wrongPassword
  else if r.status == RoomStatus.in_progress then .error .battleInProgress
  else
    let r1 := (r.addParticipant userId now).1
    .ok (r1.addChatMessage none (username ++ " joined the room") "system" now)

/-- Handler `room:leave` (roomHandlers): removes the participant, appends a
system message, destroys the room when empty (`none`), and when the leaver was
the host transfers the host role to `participants[0]`. -/
def leaveRoom (r : Room) (userId : Nat) (username : String) (now : Nat) :
    Except RoomErr (Option Room) :=
  if !r.isParticipant userId then .error .notInRoom
  else
    let r1 := (r.removeParticipant userId).addChatMessage none
                (username ++ " left the room") "system" now
    match r1.participants with
    | [] => .ok none
    | p :: _ =>
      if r.isHost userId then .ok (some { r1 with host := p.user })
      else .ok (some r1)

/-- Handler `room:toggle-ready` (roomHandlers): flips the caller's ready flag,
appends a system message and, whenever `allParticipantsReady` then holds, sets
the status to `ready` — with no check of the current status. -/
def toggleReady (r : Room) (userId : Nat) (username : String) (now : Nat) :
    Except RoomErr Room :=
  if !r.isParticipant userId then .error .notInRoom
  else
    match r.participants.find? (fun p => p.user == userId) with
    | none => .error .notInRoom
    | some participant =>
      let newReadyStatus := !participant.isReady
      let r1 := r.setParticipantReady userId newReadyStatus
      let r2 := r1.addChatMessage none
        (username ++ (if newReadyStatus then " is ready" else " is not ready"))
        "system" now
      if r2.allParticipantsReady then .ok { r2 with status := RoomStatus.ready }
      else .ok r2

/-- Handler `room:update-settings` (roomHandlers): host only, only while
waiting; copies each provided key into the settings with no further check —
in particular `maxParticipants` is not compared with the current participant
count. -/
def updateSettings (r : Room) (userId : Nat) (upd : SettingsUpdate) :
    Except RoomErr Room :=
  if !r.isHost userId then .error .notHost
  else if r.status != RoomStatus.waiting then .error .invalidState
  else
    let s0 := r.settings
    let s1 := match upd.difficulty with
              | some d => { s0 with difficulty := d }
              | none => s0
    let s2 := match upd.language with
              | some l => { s1 with language := l }
              | none => s1
    let s3 := match upd.timeLimit with
              | some t => { s2 with timeLimit := t }
              | none => s2
    let s4 := match upd.maxParticipants with
              | some m => { s3 with maxParticipants := m }
              | none => s3
    .ok { r with settings := s4 }

/-- Score of a submission in handler `battle:submit`:
`Math.round(passed / total * 100)`, i.e. `(200 p + t) / (2 t)` on naturals
(the handler never sees an empty test list, problems require one test case). -/
def submissionScore (testResults : List Bool) : Nat :=
  let passedTests := (testResults.filter (fun b => b)).length
  let totalTests := testResults.length
  if totalTests == 0 then 0 else (200 * passedTests + totalTests) / (2 * totalTests)

/-- Handler `battle:submit` (battleHandlers lines 9-120): guards (participant,
battle in progress, `timeElapsed > timeLimit` in minutes — a strict
comparison, so an elapsed time of exactly the limit passes), then records the
submission on the participant and the current code.  The second component is
the end-of-battle invocation the handler schedules (`setTimeout(endBattle,
10000)`) when the score is 100 and at least one minute has elapsed; rejected
calls return before any mutation, so the room is only rebuilt on success. -/
def battleSubmit (r : Room) (userId : Nat) (now : Nat) (code language : String)
    (testResults : List Bool) : Except RoomErr (Room × Option Nat) :=
  if !r.isParticipant userId then .error .notAuthorized
  else if r.status != RoomStatus.in_progress then .error .notInProgress
  else
    let startedAt := r.battle.startedAt.getD 0
    if now - startedAt > r.settings.timeLimit * 60000 then .error .timeUp
    else
      let score := submissionScore testResults
      let sub : Submission :=
        { code := code, language := language, submittedAt := now,
          testResults := testResults, score := score }
      let r1 := { r with participants :=
        (updateFirst userId
          (fun p => { p with lastSubmission := some sub, currentCode := code })
          r.participants) }
      let scheduledEnd :=
        if score == 100 && now - startedAt ≥ 60000 then some (now + 10000)
        else none
      .ok (r1, scheduledEnd)

/-- One participant entry of a persisted Match (Match schema). -/
structure MatchParticipant where
  user : Nat
  finalScore : Nat
  timeSpent : Nat
  submissionCount : Nat
  correctTestCases : Nat
  totalTestCases : Nat
  rank : Nat
deriving DecidableEq, Repr

/-- The persisted Match record, restricted to the fields the claims touch. -/
structure MatchRec where
  participants : List MatchParticipant
  startedAt : Option Nat
  endedAt : Option Nat
  duration : Option Nat
  winner : Option Nat
deriving DecidableEq, Repr

/-- One result entry of the socket `endBattle` helper (lines 304-316): final
score and submission count come from `lastSubmission`, while `timeSpent` is
the same wall-clock value for every participant. -/
def resultOf (r : Room) (now : Nat) (p : Participant) : BattleResult :=
  { user := p.user
    finalScore := (p.lastSubmission.map (fun s => s.score)).getD 0
    timeSpent :=
      match r.battle.startedAt with
      | some s => (now - s + 500) / 1000
      | none => 0
    submissionCount := if p.lastSubmission.isSome then 1 else 0
    correctTests :=
      (p.lastSubmission.map (fun s => (s.testResults.filter (fun b => b)).length)).getD 0
    totalTests := (p.lastSubmission.map (fun s => s.testResults.length)).getD 0 }

/-- The Match participants built by the socket `endBattle` helper (lines
328-336): the rank is `results.findIndex(res => res.user === r.user) + 1`,
the position in the unsorted results array, not a sorted position. -/
def matchParticipantsOf (results : List BattleResult) : List MatchParticipant :=
  results.map (fun r =>
    { user := r.user
      finalScore := r.finalScore
      timeSpent := r.timeSpent
      submissionCount := r.submissionCount
      correctTestCases := r.correctTests
      totalTestCases := r.totalTests
      rank := (results.findIdx (fun res => res.user == r.user)) + 1 })

/-- Socket helper `endBattle` (battleHandlers lines 293-347) as one step on
the room state: it returns unchanged with no Match when the room is not
`in_progress`; otherwise it builds the results, seals the room via
`Room.endBattle` and creates the Match.  The source line
`room.calculateRankings && room.calculateRankings()` is a silent no-op —
`calculateRankings` is defined on the Match model, not on Room — so no
sorting happens between `Room.endBattle` and the Match construction. -/
def endBattleStep (r : Room) (now : Nat) : Room × Option MatchRec :=
  if r.status != RoomStatus.in_progress then (r, none)
  else
    let results := r.participants.map (resultOf r now)
    let r1 := r.endBattle results now
    let m : MatchRec :=
      { participants := matchParticipantsOf results
        startedAt := r1.battle.startedAt
        endedAt := r1.battle.endedAt
        duration := r1.battle.duration
        winner := r1.battle.winner }
    (r1, some m)

/-- Ranks broadcast in `battle:ended` (battleHandlers lines 369-380):
`rank: index + 1` over the unsorted results array. -/
def broadcastRanks (results : List BattleResult) : List (Nat × Nat) :=
  results.enum.map (fun x => (x.2.user, x.1 + 1))

/-- Runs a list of scheduled `endBattle` invocations (grace timers and
force-ends) in firing order, collecting the Matches each one creates. -/
def runEvents (r : Room) : List Nat → Room × List MatchRec
  | [] => (r, [])
  | t :: ts =>
    match endBattleStep r t with
    | (r1, some m) =>
      let rest := runEvents r1 ts
      (rest.1, m :: rest.2)
    | (r1, none) => runEvents r1 ts

/-- Feeds a sequence of timed submissions of one participant through
`battleSubmit`, collecting the `endBattle` invocation times the handler
schedules; a rejected submission leaves the room untouched. -/
def runSubmissions (r : Room) (userId : Nat) (code language : String) :
    List (Nat × List Bool) → Room × List Nat
  | [] => (r, [])
  | (t, res) :: subs =>
    match battleSubmit r userId t code language res with
    | .ok (r1, some g) =>
      let rest := runSubmissions r1 userId code language subs
      (rest.1, g :: rest.2)
    | .ok (r1, none) => runSubmissions r1 userId code language subs
    | .error _ => runSubmissions r userId code language subs

/-- The comparator of `Match.calculateRankings` (Match.js lines 216-229) as a
total boolean preorder: score descending, then time spent ascending, then
submission count ascending; full ties compare equal both ways, which a stable
sort keeps in original order exactly as the JavaScript engine's stable
`Array.prototype.sort` does. -/
def rankLE (a b : MatchParticipant) : Bool :=
  if a.finalScore != b.finalScore then b.finalScore < a.finalScore
  else if a.timeSpent != b.timeSpent then a.timeSpent < b.timeSpent
  else a.submissionCount ≤ b.submissionCount

/-- Stable insertion into a list sorted by `rankLE`. -/
def insertRanked (a : MatchParticipant) :
    List MatchParticipant → List MatchParticipant
  | [] => [a]
  | b :: t => if rankLE a b then a :: b :: t else b :: insertRanked a t

/-- Stable sort by `rankLE`, modelling the stable JavaScript sort. -/
def sortRanked : List MatchParticipant → List MatchParticipant
  | [] => []
  | a :: t => insertRanked a (sortRanked t)

/-- Method `calculateRankings` of the Match model (Match.js lines 215-239):
sorts the participants, assigns rank `i + 1` by sorted position and returns
the winner, the first sorted entry.  This method is never invoked by the
socket `endBattle` helper. -/
def calculateRankings (ps : List MatchParticipant) :
    List MatchParticipant × Option Nat :=
  let sorted := sortRanked ps
  (sorted.enum.map (fun x => { x.2 with rank := x.1 + 1 }),
   (sorted.head?).map (fun p => p.user))

/-- Battle outcome passed to `updateStats`. -/
inductive Outcome
  | win
  | loss
  | draw
deriving DecidableEq, Repr

/-- Rank tiers of the User schema. -/
inductive Tier
  | bronze
  | silver
  | gold
  | platinum
  | diamond
  | master
deriving DecidableEq, Repr

/-- The statistics block of the User schema (part_006). -/
structure Stats where
  totalBattles : Nat := 0
  wins : Nat := 0
  losses : Nat := 0
  draws : Nat := 0
  rating : Nat := 1200
  rank : Tier := Tier.bronze
  averageTime : Nat := 0
  solvedEasy : Nat := 0
  solvedMedium : Nat := 0
  solvedHard : Nat := 0
deriving DecidableEq, Repr

/-- Increment of `problemsSolved[difficulty]` on a win. -/
def bumpSolved (s : Stats) (d : Difficulty) : Stats :=
  match d with
  | Difficulty.easy => { s with solvedEasy := s.solvedEasy + 1 }
  | Difficulty.medium => { s with solvedMedium := s.solvedMedium + 1 }
  | Difficulty.hard => { s with solvedHard := s.solvedHard + 1 }

/-- Method `updateStats` of the User model (part_006 lines 154-172): win adds
25 rating, loss clamps at `max(800, rating - 20)`, draw adds 5; the average
time is re-averaged over the incremented battle count with `Math.round`. -/
def updateStats (s : Stats) (result : Outcome) (timeSpent : Nat)
    (difficulty : Difficulty) : Stats :=
  let s := { s with totalBattles := s.totalBattles + 1 }
  let s :=
    match result with
    | Outcome.win => bumpSolved { s with wins := s.wins + 1, rating := s.rating + 25 } difficulty
    | Outcome.loss => { s with losses := s.losses + 1, rating := max 800 (s.rating - 20) }
    | Outcome.draw => { s with draws := s.draws + 1, rating := s.rating + 5 }
  let totalTime := s.averageTime * (s.totalBattles - 1) + timeSpent
  { s with averageTime := (2 * totalTime + s.totalBattles) / (2 * s.totalBattles) }

/-- The rank-recomputation pre-save hook of the User model (part_006 lines
135-146): Bronze below 1300, Silver below 1500, Gold below 1700, Platinum
below 1900, Diamond below 2100, Master from 2100 up. -/
def tierOf (rating : Nat) : Tier :=
  if rating < 1300 then Tier.bronze
  else if rating < 1500 then Tier.silver
  else if rating < 1700 then Tier.gold
  else if rating < 1900 then Tier.platinum
  else if rating < 2100 then Tier.diamond
  else Tier.master

/-- Outcome classification of the socket `endBattle` helper (lines 349-366):
`isWinner ? 'win' : 'loss'` — the draw outcome is never produced. -/
def outcomeFor (winner : Option Nat) (userId : Nat) : Outcome :=
  if winner == some userId then Outcome.win else Outcome.loss

/-- Settlement of one user: `updateStats` with the outcome derived from the
recorded winner, then `user.save()` re-running the tier pre-save hook. -/
def settleUser (winner : Option Nat) (userId : Nat) (s : Stats)
    (timeSpent : Nat) (difficulty : Difficulty) : Stats :=
  let s1 := updateStats s (outcomeFor winner userId) timeSpent difficulty
  { s1 with rank := tierOf s1.rating }

/-- Modelled from the amended claim of C4: the latest entry in array order
attaining the maximal final score — a later entry displaces an earlier one
unless the earlier one is strictly greater. -/
def lastMax : List BattleResult → Option BattleResult
  | [] => none
  | x :: t =>
    match lastMax t with
    | none => some x
    | some y => some (if x.finalScore > y.finalScore then x else y)

/-! Concrete inputs used to exercise the definitions above. -/

/-- Short participant constructor for concrete rooms. -/
def P (u j : Nat) (rdy : Bool) (sub : Option Submission := none) : Participant :=
  { user := u, joinedAt := j, isReady := rdy, lastSubmission := sub }

/-- Short submission constructor for concrete rooms. -/
def sub1 (sc : Nat) (tr : List Bool) : Submission :=
  { code := "c", language := "js", submittedAt := 0, testResults := tr, score := sc }

/-- Default settings of a two-player medium room. -/
def S0 : Settings :=
  { maxParticipants := 2, difficulty := Difficulty.medium, language := "any",
    timeLimit := 15, isRanked := true, allowSpectators := true }

/-- Room for C1: in progress, first joiner scored 60, second scored 80. -/
def RrkRoom : Room :=
  { roomId := "R1", name := "r", host := 1,
    participants := [P 1 0 true (some (sub1 60 [true])),
                     P 2 1 true (some (sub1 80 [true]))],
    settings := S0, status := RoomStatus.in_progress,
    battle := { startedAt := some 0 } }

/-- The worked ranking example of the specification as Match participants:
scores 80, 80, 60 with times 120 s, 90 s, 200 s. -/
def specMP : List MatchParticipant :=
  [{ user := 1, finalScore := 80, timeSpent := 120, submissionCount := 1,
     correctTestCases := 0, totalTestCases := 0, rank := 0 },
   { user := 2, finalScore := 80, timeSpent := 90, submissionCount := 1,
     correctTestCases := 0, totalTestCases := 0, rank := 0 },
   { user := 3, finalScore := 60, timeSpent := 200, submissionCount := 1,
     correctTestCases := 0, totalTestCases := 0, rank := 0 }]

/-- Room for C2: an in-progress two-player room. -/
def R2 : Room :=
  { roomId := "R2", name := "r", host := 1,
    participants := [P 1 0 true, P 2 1 true],
    settings := S0, status := RoomStatus.in_progress,
    battle := { startedAt := some 0 } }

/-- Room for C3: in progress with a one-minute time limit, started at t = 0. -/
def R3 : Room :=
  { roomId := "R3", name := "r", host := 1,
    participants := [P 1 0 true, P 2 1 true],
    settings := { S0 with timeLimit := 1 }, status := RoomStatus.in_progress,
    battle := { startedAt := some 0 } }

/-- Room for C4. -/
def R4 : Room :=
  { roomId := "R4", name := "r", host := 1,
    participants := [P 1 0 true, P 2 1 true],
    settings := S0, status := RoomStatus.in_progress,
    battle := { startedAt := some 0 } }

/-- Results for C4: both scored 80, the first spent 90 s, the second 120 s. -/
def results4 : List BattleResult :=
  [{ user := 1, finalScore := 80, timeSpent := 90, submissionCount := 1,
     correctTests := 1, totalTests := 1 },
   { user := 2, finalScore := 80, timeSpent := 120, submissionCount := 1,
     correctTests := 1, totalTests := 1 }]

/-- The C4 results as Match participants, for the claimed deterministic order. -/
def mp4 : List MatchParticipant :=
  [{ user := 1, finalScore := 80, timeSpent := 90, submissionCount := 1,
     correctTestCases := 1, totalTestCases := 1, rank := 0 },
   { user := 2, finalScore := 80, timeSpent := 120, submissionCount := 1,
     correctTestCases := 1, totalTestCases := 1, rank := 0 }]

/-- Room for C5: in progress, 15-minute limit, started at t = 0. -/
def R5 : Room :=
  { roomId := "R5", name := "r", host := 1,
    participants := [P 1 0 true, P 2 1 true],
    settings := S0, status := RoomStatus.in_progress,
    battle := { startedAt := some 0 } }

/-- Room for C6, first state: created with capacity 4. -/
def c6room0 : Room :=
  createRoom "C6" "n" 1 { maxParticipants := some 4 } false none 0

/-- Room for the C6 witness: created with capacity 3. -/
def c6aRoom : Room :=
  createRoom "C6w" "n" 1 { maxParticipants := some 3 } false none 0

/-- Room for the C6 witness after a join. -/
def c6bRoom : Room :=
  ((joinRoom c6aRoom 2 "u2" none 5).toOption).getD c6aRoom

/-- Room for the C6 witness after a leave. -/
def c6cRoom : Room :=
  ((leaveRoom c6bRoom 2 "u2" 9).toOption.bind id).getD c6bRoom

/-- Room for C7: in progress with both participants ready. -/
def R7 : Room :=
  { roomId := "R7", name := "r", host := 1,
    participants := [P 1 0 true, P 2 1 true],
    settings := S0, status := RoomStatus.in_progress,
    battle := { startedAt := some 0 } }

/-- Room for the C7 witness: waiting, second participant already ready. -/
def R7w : Room :=
  { roomId := "R7w", name := "r", host := 1,
    participants := [P 1 0 false, P 2 1 true],
    settings := S0, status := RoomStatus.waiting }

/-- Room after the C7 witness toggle. -/
def c7wRoom : Room :=
  ((toggleReady R7w 1 "u1" 5).toOption).getD R7w

/-- Room for C8: both participants share the top score 80. -/
def R8 : Room :=
  { roomId := "R8", name := "r", host := 1,
    participants := [P 1 0 true (some (sub1 80 [true])),
                     P 2 1 true (some (sub1 80 [true]))],
    settings := S0, status := RoomStatus.in_progress,
    battle := { startedAt := some 0 } }

/-- Room for C9: three participants joined at 0, 5 and 9; the host is the
earliest. -/
def R9 : Room :=
  { roomId := "R9", name := "r", host := 1,
    participants := [P 1 0 false, P 2 5 false, P 3 9 false],
    settings := { S0 with maxParticipants := 4 }, status := RoomStatus.waiting }

/-- Room for C9 with a single participant. -/
def R9s : Room :=
  { roomId := "R9s", name := "r", host := 7, participants := [P 7 0 false],
    settings := S0 }

/-- Reduction of an optional running maximum with `pick`. -/
def pickOpt (a : BattleResult) : Option BattleResult → BattleResult
  | none => a
  | some y => pick a y

/-! Helper lemmas. -/

/-- Chat messages do not touch the participant list. -/
theorem addChatMessage_participants (r : Room) (uid : Option Nat)
    (msg ty : String) (now : Nat) :
    (r.addChatMessage uid msg ty now).participants = r.participants := rfl

/-- Chat messages do not touch the status. -/
theorem addChatMessage_status (r : Room) (uid : Option Nat)
    (msg ty : String) (now : Nat) :
    (r.addChatMessage uid msg ty now).status = r.status := rfl

/-- The winner reducer is associative: it selects the rightmost entry
attaining the running maximum, whichever way applications are nested. -/
theorem pick_assoc (a b c : BattleResult) :
    pick (pick a b) c = pick a (pick b c) := by
  unfold pick
  split_ifs <;> first | rfl | (exfalso; omega)

/-- Unfolding `lastMax` on a cons in terms of `pick`. -/
theorem lastMax_cons (x : BattleResult) (t : List BattleResult) :
    lastMax (x :: t) = some (pickOpt x (lastMax t)) := by
  cases h : lastMax t <;> simp [lastMax, pickOpt, pick, h]

/-- The left fold of `pick` computes the rightmost maximum. -/
theorem foldl_pick (t : List BattleResult) :
    ∀ a : BattleResult, t.foldl pick a = pickOpt a (lastMax t) := by
  induction t with
  | nil => intro a; rfl
  | cons c t ih =>
    intro a
    rw [List.foldl_cons, ih (pick a c), lastMax_cons]
    cases h : lastMax t with
    | none => rfl
    | some y => simp only [pickOpt, pick_assoc]

/-- Every list entry scores at most the `lastMax` entry. -/
theorem lastMax_le (l : List BattleResult) :
    ∀ x ∈ l, ∀ y, lastMax l = some y → x.finalScore ≤ y.finalScore := by
  induction l with
  | nil => intro x hx; cases hx
  | cons c t ih =>
    intro x hx y hy
    rw [lastMax_cons] at hy
    cases hy
    cases hx with
    | head =>
      cases h : lastMax t with
      | none => simp [pickOpt, h]
      | some z => simp only [pickOpt, pick, h]; split <;> omega
    | tail _ hmem =>
      cases h : lastMax t with
      | none =>
        cases t with
        | nil => cases hmem
        | cons d u => rw [lastMax_cons] at h; cases h
      | some z =>
        have hz := ih x hmem z h
        simp only [pickOpt, pick, h]
        split <;> omega

/-- Once a room is not in progress, later scheduled `endBattle` firings leave
it untouched and create no Match. -/
theorem runEvents_stuck (ts : List Nat) (r : Room)
    (h : r.status ≠ RoomStatus.in_progress) : runEvents r ts = (r, []) := by
  induction ts with
  | nil => rfl
  | cons t ts ih =>
    have hstep : endBattleStep r t = (r, none) := by
      simp [endBattleStep, bne_iff_ne, h]
    simp [runEvents, hstep, ih]

/-- On an in-progress room, `endBattleStep` seals the battle block. -/
theorem endBattleStep_in_progress (r : Room) (now : Nat)
    (h : r.status = RoomStatus.in_progress) :
    endBattleStep r now =
      (r.endBattle (r.participants.map (resultOf r now)) now,
       some { participants := matchParticipantsOf (r.participants.map (resultOf r now))
              startedAt := r.battle.startedAt
              endedAt := some now
              duration := some ((now - r.battle.startedAt.getD 0 + 500) / 1000)
              winner := (r.endBattle (r.participants.map (resultOf r now)) now).battle.winner }) := by
  simp [endBattleStep, h, Room.endBattle]

/-- Chat messages do not touch the settings. -/
theorem addChatMessage_settings (r : Room) (uid : Option Nat)
    (msg ty : String) (now : Nat) :
    (r.addChatMessage uid msg ty now).settings = r.settings := rfl

/-- A successful leave keeps exactly the filtered participant list and the
settings of the original room. -/
theorem leaveRoom_ok_some (r : Room) (u : Nat) (un : String) (now : Nat)
    (r' : Room) :
    leaveRoom r u un now = .ok (some r') →
    r'.participants = (r.removeParticipant u).participants
    ∧ r'.settings = r.settings := by
  unfold leaveRoom
  split
  · intro h; cases h
  · cases hp : ((r.removeParticipant u).addChatMessage none
        (un ++ " left the room") "system" now).participants with
    | nil => simp [hp]
    | cons p rest =>
      simp only [hp]
      split
      · intro h
        simp only [Except.ok.injEq, Option.some.injEq] at h
        subst h
        exact ⟨hp.symm, rfl⟩
      · intro h
        simp only [Except.ok.injEq, Option.some.injEq] at h
        subst h
        exact ⟨rfl, rfl⟩

/-!
Claim theorems.
-/

/-- C1.  The ranks the end-of-battle path records diverge from the claimed
order: in `RrkRoom` the first joiner scored 60 and the second 80, yet the
persisted Match ranks the 60-scorer first (rank = array position, because the
`room.calculateRankings` call is a silent no-op).  By contrast the Match
model's own `calculateRankings` — the method the source meant to invoke —
reproduces exactly the claimed order on the specification's worked example
(scores 80, 80, 60, times 120 s, 90 s, 200 s give the 90-second 80-scorer
rank 1, the 120-second 80-scorer rank 2, the 60-scorer rank 3). -/
theorem c1_ranks_are_array_position :
    ((endBattleStep RrkRoom 300000).2.map
        (fun m => m.participants.map (fun p => (p.user, p.finalScore, p.rank))))
      = some [(1, 60, 1), (2, 80, 2)]
    ∧ (calculateRankings specMP).1.map (fun p => (p.user, p.rank))
      = [(2, 1), (1, 2), (3, 3)]
    ∧ (calculateRankings specMP).2 = some 2 := by
  refine ⟨?_, ?_, ?_⟩ <;> rfl

/-- C2.  Invoking the end-of-battle step twice on an in-progress room creates
exactly one Match: the first invocation produces a Match and completes the
room, the second finds the room no longer in progress and returns it
unchanged with no Match. -/
theorem c2_end_battle_idempotent (r : Room) (n1 n2 : Nat)
    (h : r.status = RoomStatus.in_progress) :
    (endBattleStep r n1).2.isSome = true
    ∧ endBattleStep (endBattleStep r n1).1 n2 = ((endBattleStep r n1).1, none) := by
  rw [endBattleStep_in_progress r n1 h]
  constructor
  · rfl
  · simp [endBattleStep, Room.endBattle]

/-- C2 witness: the idempotency theorem at the concrete room `R2`. -/
theorem c2_end_battle_idempotent_witness :
    (endBattleStep R2 10).2.isSome = true
    ∧ endBattleStep (endBattleStep R2 10).1 20 = ((endBattleStep R2 10).1, none) :=
  c2_end_battle_idempotent R2 10 20 rfl

/-- C3 counterexample.  With a one-minute time limit and a perfect submission
at t = 60 s, the handler schedules the only end-of-battle invocation at
t = 70 s; the battle therefore ends at t = 70 s, after the time limit — no
hard timeout fires at t = 60 s. -/
theorem c3_no_hard_timeout_counterexample :
    (runSubmissions R3 1 "c" "js" [(60000, [true])]).2 = [70000]
    ∧ (runEvents (runSubmissions R3 1 "c" "js" [(60000, [true])]).1 [70000]).1.battle.endedAt
        = some 70000
    ∧ (runEvents (runSubmissions R3 1 "c" "js" [(60000, [true])]).1 [70000]).1.status
        = RoomStatus.completed
    ∧ (runEvents (runSubmissions R3 1 "c" "js" [(60000, [true])]).1 [70000]).1.battle.endedAt
        ≠ some 60000 := by
  refine ⟨rfl, rfl, rfl, ?_⟩
  decide

/-- C3 amended.  An in-progress battle ends exactly at the first scheduled
`endBattle` invocation (grace timer or force-end), whatever the configured
time limit: the step function never consults the clock, so no hard timeout
exists to pre-empt a pending grace timer. -/
theorem c3_ends_at_first_event (r : Room) (t : Nat) (ts : List Nat)
    (h : r.status = RoomStatus.in_progress) :
    (runEvents r (t :: ts)).1.battle.endedAt = some t
    ∧ (runEvents r (t :: ts)).1.status = RoomStatus.completed := by
  have hstep := endBattleStep_in_progress r t h
  have hstuck : runEvents (r.endBattle (r.participants.map (resultOf r t)) t) ts
      = (r.endBattle (r.participants.map (resultOf r t)) t, []) := by
    apply runEvents_stuck
    simp [Room.endBattle]
  simp only [runEvents, hstep, hstuck]
  exact ⟨rfl, rfl⟩

/-- C3 witness: the first-event theorem at the concrete room `R3` with an
event at t = 70 s. -/
theorem c3_ends_at_first_event_witness :
    (runEvents R3 (70000 :: [])).1.battle.endedAt = some 70000
    ∧ (runEvents R3 (70000 :: [])).1.status = RoomStatus.completed :=
  c3_ends_at_first_event R3 70000 [] rfl

/-- C4 counterexample.  On two participants tied at 80 where the first spent
90 s and the second 120 s, the Room's `endBattle` records the second as
winner (the reducer keeps the later array entry on ties), while the claimed
deterministic order (score descending, time ascending, submissions ascending)
puts the 90-second participant first. -/
theorem c4_winner_ignores_tiebreaks :
    (Room.endBattle R4 results4 200000).battle.winner = some 2
    ∧ (sortRanked mp4).head?.map (fun p => p.user) = some 1
    ∧ (some 2 : Option Nat) ≠ some 1 := by
  refine ⟨rfl, rfl, ?_⟩
  decide

/-- C4 amended.  The winner recorded by the Room's `endBattle` is the latest
entry in results-array order attaining the maximal final score: it always
attains the maximum, and equal top scores are resolved by array position
(later wins), never by time spent or submission count. -/
theorem c4_winner_is_last_top_scorer (r : Room) (results : List BattleResult)
    (now : Nat) (h : results ≠ []) :
    (Room.endBattle r results now).battle.winner
      = (lastMax results).map (fun x => x.user)
    ∧ ∀ x ∈ results, ∀ y, lastMax results = some y →
        x.finalScore ≤ y.finalScore := by
  constructor
  · cases results with
    | nil => exact absurd rfl h
    | cons c t =>
      show some ((t.foldl pick c).user) = _
      rw [foldl_pick, lastMax_cons]
      rfl
  · exact lastMax_le results

/-- C4 witness: the last-top-scorer theorem at the concrete results of the
counterexample. -/
theorem c4_winner_is_last_top_scorer_witness :
    (Room.endBattle R4 results4 200000).battle.winner
      = (lastMax results4).map (fun x => x.user) :=
  (c4_winner_is_last_top_scorer R4 results4 200000 (by decide)).1

/-- C5 counterexample.  A submission at an elapsed time of exactly the limit
(remaining = 0, so remaining ≤ 0) is accepted, not rejected: the handler's
check `timeElapsed > timeLimit` is strict. -/
theorem c5_boundary_submission_accepted :
    (battleSubmit R5 1 900000 "c" "js" [true]).toOption.isSome = true
    ∧ 900000 - R5.battle.startedAt.getD 0 = R5.settings.timeLimit * 60000 := by
  exact ⟨rfl, rfl⟩

/-- C5 amended.  A submission by a participant of an in-progress room whose
elapsed time strictly exceeds the time limit is rejected with the
battle-expired error; the handler returns before any write, so the rejected
call produces no updated room state. -/
theorem c5_expired_submission_rejected (r : Room) (u now : Nat)
    (code language : String) (res : List Bool)
    (h1 : r.isParticipant u = true) (h2 : r.status = RoomStatus.in_progress)
    (h3 : r.settings.timeLimit * 60000 < now - r.battle.startedAt.getD 0) :
    battleSubmit r u now code language res = .error RoomErr.timeUp := by
  simp [battleSubmit, h1, h2, h3]

/-- C5 witness: the rejection theorem one millisecond past the limit. -/
theorem c5_expired_submission_rejected_witness :
    battleSubmit R5 1 900001 "c" "js" [true] = .error RoomErr.timeUp :=
  c5_expired_submission_rejected R5 1 900001 "c" "js" [true]
    (by decide) rfl (by decide)

/-- C6 counterexample.  Creating a room with capacity 4, joining two more
participants and then lowering `maxParticipants` to 2 through the settings
handler leaves 3 participants in a room whose capacity is 2: the settings
update performs no check against the current participant count. -/
theorem c6_settings_update_breaks_capacity :
    (((joinRoom c6room0 2 "u2" none 10).toOption.bind
        (fun r => (joinRoom r 3 "u3" none 20).toOption)).bind
        (fun r => (updateSettings r 1 { maxParticipants := some 2 }).toOption)).map
        (fun r => (r.participants.length, r.settings.maxParticipants))
      = some (3, 2)
    ∧ ¬ (3 ≤ 2) := by
  exact ⟨rfl, by decide⟩

/-- C6 amended.  The capacity invariant `participants.length ≤
settings.maxParticipants` is established by room creation and preserved by
join (a full room rejects the join) and by leave; only the settings-update
handler can break it, by lowering `maxParticipants` below the current count. -/
theorem c6_capacity_invariant_except_settings :
    (∀ (rid nm : String) (h : Nat) (cs : CreateSettings) (priv : Bool)
        (pw : Option String) (now : Nat),
      (createRoom rid nm h cs priv pw now).participants.length
        ≤ (createRoom rid nm h cs priv pw now).settings.maxParticipants)
    ∧ (∀ (r : Room) (u : Nat) (un : String) (pw : Option String) (now : Nat)
        (r' : Room), joinRoom r u un pw now = .ok r' →
        r'.participants.length ≤ r'.settings.maxParticipants)
    ∧ (∀ (r : Room) (u : Nat) (un : String) (now : Nat) (r' : Room),
        leaveRoom r u un now = .ok (some r') →
        r.participants.length ≤ r.settings.maxParticipants →
        r'.participants.length ≤ r'.settings.maxParticipants) := by
  refine ⟨?_, ?_, ?_⟩
  · intro rid nm h cs priv pw now
    simp only [createRoom, Room.addParticipant]
    split
    · exact Nat.zero_le _
    · next hcond =>
      simp only [Bool.or_eq_true, not_or, Room.isFull, Room.isParticipant,
        decide_eq_true_eq, List.length_nil, ge_iff_le, not_le] at hcond
      simpa using Nat.succ_le_of_lt (by omega : 0 < jsOr cs.maxParticipants 2)
  · intro r u un pw now r' hok
    unfold joinRoom at hok
    split at hok
    · cases hok
    · split at hok
      · cases hok
      · split at hok
        · cases hok
        · split at hok
          · cases hok
          · next hFull hPart _ _ =>
            simp only [Except.ok.injEq] at hok
            subst hok
            rw [addChatMessage_participants, addChatMessage_settings]
            simp only [Bool.not_eq_true] at hFull hPart
            simp only [Room.addParticipant, hFull, hPart, Bool.or_self,
              Bool.false_eq_true, if_false]
            simp only [Room.isFull, ge_iff_le, decide_eq_false_iff_not, not_le] at hFull
            simp only [List.length_append, List.length_cons, List.length_nil]
            omega
  · intro r u un now r' hok hinv
    obtain ⟨hps, hst⟩ := leaveRoom_ok_some r u un now r' hok
    rw [hps, hst]
    calc (r.removeParticipant u).participants.length
        ≤ r.participants.length := List.length_filter_le _ _
      _ ≤ r.settings.maxParticipants := hinv

/-- C6 witness: the invariant theorem at a concrete creation, a concrete
successful join and a concrete successful leave. -/
theorem c6_capacity_invariant_witness :
    c6aRoom.participants.length ≤ c6aRoom.settings.maxParticipants
    ∧ c6bRoom.participants.length ≤ c6bRoom.settings.maxParticipants
    ∧ c6cRoom.participants.length ≤ c6cRoom.settings.maxParticipants :=
  ⟨c6_capacity_invariant_except_settings.1 "C6w" "n" 1
      { maxParticipants := some 3 } false none 0,
   c6_capacity_invariant_except_settings.2.1 c6aRoom 2 "u2" none 5 c6bRoom rfl,
   c6_capacity_invariant_except_settings.2.2 c6bRoom 2 "u2" 9 c6cRoom rfl (by decide)⟩

/-- Setting only the status leaves the readiness predicate unchanged. -/
theorem allPR_set_status (x : Room) (s : RoomStatus) :
    ({ x with status := s } : Room).allParticipantsReady
      = x.allParticipantsReady := rfl

/-- C7 counterexample.  A ready-toggle can move an in-progress room to status
`ready`: from `R7` (in progress, both participants ready), toggling the same
participant twice lands the room in status `ready` although it was never in
`waiting`. -/
theorem c7_ready_from_in_progress :
    ((toggleReady R7 1 "u1" 5).toOption.bind
        (fun r => (toggleReady r 1 "u1" 6).toOption)).map (fun r => r.status)
      = some RoomStatus.ready
    ∧ R7.status = RoomStatus.in_progress := ⟨rfl, rfl⟩

/-- C7 amended.  A successful ready-toggle sets the status to `ready` exactly
when the quorum condition (at least 2 participants, all ready) holds after
the toggle — but from any current status, not only from `waiting`; when the
quorum fails the status is left unchanged. -/
theorem c7_ready_iff_quorum (r : Room) (u : Nat) (un : String) (now : Nat)
    (r' : Room) (h : toggleReady r u un now = .ok r') :
    (r'.allParticipantsReady = true → r'.status = RoomStatus.ready)
    ∧ (r'.allParticipantsReady = false → r'.status = r.status) := by
  unfold toggleReady at h
  split at h
  · cases h
  · split at h
    · cases h
    · dsimp only at h
      split at h
      all_goals split at h
      all_goals first
        | (rename_i hq
           injection h with h
           subst h
           refine ⟨fun _ => rfl, fun hf => ?_⟩
           rw [allPR_set_status] at hf
           rw [hf] at hq
           cases hq)
        | (rename_i hq
           injection h with h
           subst h
           simp only [Bool.not_eq_true] at hq
           exact ⟨fun ht => absurd ht (by rw [hq]; simp), fun _ => rfl⟩)

/-- C7 witness: the quorum theorem at a concrete waiting room where the
toggle completes the quorum. -/
theorem c7_ready_iff_quorum_witness : c7wRoom.status = RoomStatus.ready :=
  (c7_ready_iff_quorum R7w 1 "u1" 5 c7wRoom rfl).1 rfl

/-- C8 counterexample.  In `R8` both participants share the top score 80, yet
settlement records participant 2 as sole winner and classifies participant 1
as a loss: their rating drops from 1200 to 1180 instead of the claimed draw
adjustment to 1205. -/
theorem c8_tie_settles_as_loss :
    (endBattleStep R8 300000).2.map (fun m => m.winner) = some (some 2)
    ∧ (settleUser (some 2) 1 {} 300 Difficulty.medium).rating = 1180
    ∧ (settleUser (some 2) 1 {} 300 Difficulty.medium).rating
        ≠ ({} : Stats).rating + 5 := by
  refine ⟨rfl, rfl, by decide⟩

/-- C8 amended.  The rating adjustments and tier thresholds are exactly as
claimed — win adds 25, loss clamps at `max(800, rating − 20)`, draw adds 5,
and the tier is Bronze below 1300, Silver below 1500, Gold below 1700,
Platinum below 1900, Diamond below 2100, Master from 2100 — but the
settlement path classifies every participant as win or loss (win exactly for
the recorded winner), so the draw outcome is never produced. -/
theorem c8_rating_rules (s : Stats) (t : Nat) (d : Difficulty)
    (w : Option Nat) (u : Nat) :
    (updateStats s Outcome.win t d).rating = s.rating + 25
    ∧ (updateStats s Outcome.loss t d).rating = max 800 (s.rating - 20)
    ∧ (updateStats s Outcome.draw t d).rating = s.rating + 5
    ∧ outcomeFor w u ≠ Outcome.draw
    ∧ (∀ rt : Nat, rt < 1300 → tierOf rt = Tier.bronze)
    ∧ (∀ rt : Nat, 1300 ≤ rt → rt < 1500 → tierOf rt = Tier.silver)
    ∧ (∀ rt : Nat, 1500 ≤ rt → rt < 1700 → tierOf rt = Tier.gold)
    ∧ (∀ rt : Nat, 1700 ≤ rt → rt < 1900 → tierOf rt = Tier.platinum)
    ∧ (∀ rt : Nat, 1900 ≤ rt → rt < 2100 → tierOf rt = Tier.diamond)
    ∧ (∀ rt : Nat, 2100 ≤ rt → tierOf rt = Tier.master) := by
  refine ⟨by cases d <;> rfl, rfl, rfl, ?_, ?_, ?_, ?_, ?_, ?_, ?_⟩
  · unfold outcomeFor; split <;> simp
  all_goals
    (intro rt
     intros
     unfold tierOf
     split_ifs <;> first | rfl | (exfalso; omega))

/-- C8 witness: the rating rules at a fresh 1200-rated user and at concrete
ratings inside each claimed band boundary. -/
theorem c8_rating_rules_witness :
    (updateStats {} Outcome.win 10 Difficulty.easy).rating = ({} : Stats).rating + 25
    ∧ tierOf 1299 = Tier.bronze
    ∧ tierOf 1450 = Tier.silver
    ∧ tierOf 2100 = Tier.master :=
  ⟨(c8_rating_rules {} 10 Difficulty.easy none 1).1,
   (c8_rating_rules {} 10 Difficulty.easy none 1).2.2.2.2.1 1299 (by decide),
   (c8_rating_rules {} 10 Difficulty.easy none 1).2.2.2.2.2.1 1450
     (by decide) (by decide),
   (c8_rating_rules {} 10 Difficulty.easy none 1).2.2.2.2.2.2.2.2.2 2100
     (by decide)⟩

/-- C9.  When the host leaves a room whose participant list is ordered by
join time, the host role passes to the first remaining participant, who
joined no later than every other remaining participant; and the leave of the
only participant destroys the room. -/
theorem c9_host_transfer_and_destroy (room : Room) (username : String)
    (now : Nat) :
    (∀ q qs, room.participants.Pairwise (fun a b => a.joinedAt ≤ b.joinedAt) →
      room.isParticipant room.host = true →
      (room.removeParticipant room.host).participants = q :: qs →
      ((leaveRoom room room.host username now).toOption.bind id).map
          (fun r => r.host) = some q.user
      ∧ ∀ x ∈ q :: qs, q.joinedAt ≤ x.joinedAt)
    ∧ (∀ p, room.participants = [p] →
        leaveRoom room p.user username now = Except.ok none) := by
  constructor
  · intro q qs hsort hin hrem
    have hrem1 : ((room.removeParticipant room.host).addChatMessage none
        (username ++ " left the room") "system" now).participants = q :: qs := hrem
    constructor
    · simp [leaveRoom, hin, hrem1, Room.isHost, Except.toOption, Option.bind]
    · have hpw : (q :: qs).Pairwise (fun a b => a.joinedAt ≤ b.joinedAt) := by
        rw [← hrem]
        exact List.Pairwise.sublist (List.filter_sublist _) hsort
      intro x hx
      cases hx with
      | head => exact Nat.le_refl _
      | tail _ hmem => exact (List.pairwise_cons.mp hpw).1 x hmem
  · intro p hp
    simp [leaveRoom, Room.isParticipant, hp, Room.removeParticipant,
      addChatMessage_participants]

/-- C9 witness: the theorem at the concrete three-participant room `R9`
(host joined at 0, others at 5 and 9) and the singleton room `R9s`. -/
theorem c9_host_transfer_witness :
    ((leaveRoom R9 1 "h" 99).toOption.bind id).map (fun r => r.host) = some 2
    ∧ leaveRoom R9s 7 "s" 0 = Except.ok none :=
  ⟨((c9_host_transfer_and_destroy R9 "h" 99).1 (P 2 5 false) [P 3 9 false]
      (by simp [R9, P, List.pairwise_cons]) rfl rfl).1,
   (c9_host_transfer_and_destroy R9s "s" 0).2 (P 7 0 false) rfl⟩

/-- C10.  After any `addChatMessage` the chat log holds
`min (previous + 1) 100` entries — never more than 100 — and the retained
log is a suffix of the full appended log, i.e. exactly the most recent
messages in order. -/
theorem c10_chat_capped (r : Room) (uid : Option Nat) (msg ty : String)
    (now : Nat) :
    (r.addChatMessage uid msg ty now).chat.length = min (r.chat.length + 1) 100
    ∧ (r.addChatMessage uid msg ty now).chat.length ≤ 100
    ∧ (r.addChatMessage uid msg ty now).chat <:+
        (r.chat ++ [{ user := uid, message := msg, timestamp := now, type := ty }]) := by
  have hlen : (r.addChatMessage uid msg ty now).chat.length
      = min (r.chat.length + 1) 100 := by
    simp only [Room.addChatMessage]
    split
    · next h =>
      simp only [List.length_append, List.length_cons, List.length_nil] at h
      simp only [List.length_drop, List.length_append, List.length_cons,
        List.length_nil]
      omega
    · next h =>
      simp only [List.length_append, List.length_cons, List.length_nil] at h ⊢
      omega
  refine ⟨hlen, ?_, ?_⟩
  · rw [hlen]; exact Nat.min_le_right _ _
  · simp only [Room.addChatMessage]
    split
    · exact List.drop_suffix _ _
    · exact List.suffix_refl _

end CodeBattle
